import Mathlib

/-!
Shallow embedding of the SkyRipper detection-and-alert pipeline
(`src/drone_scanner.py`, `src/web_gui/app.py`) together with theorems
settling the specification claims.

Conventions of the embedding:
* Python floats are modelled as `ℚ` where the code only compares and adds
  finitely many values, and as `ℝ` where the code evaluates transcendental
  functions (`sin`, the Hann window's `cos`).
* Python exceptions are modelled with `Except PyErr`; a `try/except` block
  becomes a `match` on the result.
* Opaque learned state (the Torch CNN's class decision) is an abstract
  function parameter `List ℚ → Bool`, standing for `logits.argmax() == 1`.
* Randomness (`np.random.default_rng()`) is modelled by passing the stream
  of draw results explicitly; an unseeded generator means the stream is an
  external input that no caller-supplied argument determines.
-/

/-- Python exception kinds that appear in `drone_scanner.py`. -/
inductive PyErr where
  | fileNotFoundError
  | requestException
  | valueError
  deriving DecidableEq, Repr

/-- Constant `ALERT_THRESHOLD_DBM = -50.0` from `drone_scanner.py`. -/
def ALERT_THRESHOLD_DBM : ℚ := -50

/-- Embeds `float(np.max(spectrum))`: maximum of a nonempty list (junk value `0`
on `[]`, where the Python call would raise `ValueError`). -/
def peakMax : List ℚ → ℚ
  | [] => 0
  | x :: xs => xs.foldl max x

/-- The `DroneCNN` wrapper's state: `model` is `some f` when Torch is
available (`self.model = _TorchDroneCNN()`), where `f` is the module's
binary class decision (`logits.argmax() == 1`); `none` when Torch is
missing (`self.model = None`). -/
structure DroneCNN where
  model : Option (List ℚ → Bool)

/-- Embeds `DroneCNN.__init__`: installs a fresh (untrained) Torch module when
Torch is available, `None` otherwise. -/
def droneCNNInit (torchAvail : Bool) (untrained : List ℚ → Bool) : DroneCNN :=
  ⟨if torchAvail then some untrained else none⟩

/-- Embeds `DroneCNN.predict` (`drone_scanner.py:70-79`): with no Torch module the
decision is `peak_power > ALERT_THRESHOLD_DBM`; with a module it is the
module's class-1 decision on the first 100 bins conjoined with the same
peak-power check. -/
def DroneCNN.predict (m : DroneCNN) (spectrum : List ℚ) : Bool :=
  let peak := peakMax spectrum
  match m.model with
  | none => decide (peak > ALERT_THRESHOLD_DBM)
  | some cnn => cnn (spectrum.take 100) && decide (peak > ALERT_THRESHOLD_DBM)

/-- Embeds `DroneCNN.load_state` (`drone_scanner.py:63-68`): a no-op when Torch is
missing; otherwise `torch.load(path)` raises `FileNotFoundError` when the
checkpoint file does not exist, and on success installs the trained
weights (modelled as replacing the class decision by `trained`). -/
def DroneCNN.load_state (m : DroneCNN) (fileExists : Bool)
    (trained : List ℚ → Bool) : Except PyErr DroneCNN :=
  match m.model with
  | none => .ok m
  | some _ => if fileExists then .ok ⟨some trained⟩ else .error .fileNotFoundError

/-- Embeds `load_model` (`drone_scanner.py:82-93`): builds a `DroneCNN`; when Torch
is missing returns it directly; otherwise tries `load_state` and catches
`FileNotFoundError`, returning the object as constructed. Total: every
path returns a classifier. -/
def load_model (torchAvail fileExists : Bool)
    (untrained trained : List ℚ → Bool) : DroneCNN :=
  let m := droneCNNInit torchAvail untrained
  if torchAvail = false then m
  else
    match m.load_state fileExists trained with
    | .ok m2 => m2
    | .error _ => m

/-- An outbound HTTP request as issued by `requests.post` in `post_alert`:
the target URL and the `timeout=` argument (seconds). -/
structure HttpReq where
  url : String
  timeoutSeconds : ℚ
  deriving DecidableEq, Repr

/-- Embeds `requests.post`: raises `requests.RequestException` exactly when the
delivery fails (an external condition), otherwise succeeds. -/
def requestsPost (_req : HttpReq) (deliveryFails : Bool) : Except PyErr Unit :=
  if deliveryFails then .error .requestException else .ok ()

/-- Observable outcome of one `post_alert` call: whether the classifier was
invoked and the list of HTTP requests attempted. -/
structure PostAlertResult where
  predictCalled : Bool
  requests : List HttpReq
  deriving DecidableEq, Repr

/-- Embeds `post_alert` (`drone_scanner.py:131-151`): returns early when the sample
has fewer than 100 bins; otherwise invokes the classifier; on a positive
decision issues one HTTP post with `timeout=2` and swallows any
`RequestException`. -/
def post_alert (m : DroneCNN) (freqs : List ℚ) (deliveryFails : Bool) :
    Except PyErr PostAlertResult :=
  if freqs.length < 100 then .ok ⟨false, []⟩
  else if m.predict freqs = false then .ok ⟨true, []⟩
  else
    let req : HttpReq := ⟨"http://localhost:5000/api/alert", 2⟩
    match requestsPost req deliveryFails with
    | .ok _ => .ok ⟨true, [req]⟩
    | .error .requestException => .ok ⟨true, [req]⟩
    | .error e => .error e

/-- Helper `startsWithChars`: a starts-with check on character lists (helper for the Python
substring test `"2400" in line`). -/
def startsWithChars : List Char → List Char → Bool
  | [], _ => true
  | _ :: _, [] => false
  | a :: as, b :: bs => a == b && startsWithChars as bs

/-- Python's `pat in s` substring containment on character lists. -/
def hasSubChars (pat : List Char) : List Char → Bool
  | [] => startsWithChars pat []
  | b :: bs => startsWithChars pat (b :: bs) || hasSubChars pat bs

/-- Worker for `splitWs`: scans the characters, accumulating the current
token in reverse; whitespace ends a token, and empty tokens are dropped
(so runs of whitespace act as one separator). -/
def splitWsGo (cur : List Char) : List Char → List (List Char)
  | [] => if cur.isEmpty then [] else [cur.reverse]
  | c :: cs =>
    if c.isWhitespace then
      if cur.isEmpty then splitWsGo [] cs
      else cur.reverse :: splitWsGo [] cs
    else splitWsGo (c :: cur) cs

/-- Python's `str.split()` with no argument: split on whitespace runs,
dropping empty tokens. -/
def splitWs (s : String) : List String :=
  (splitWsGo [] s.toList).map String.mk

/-- The list comprehension `[float(value) for value in parts[6:]]`: parses
each field with the abstract `float` parser `pf`, propagating the first
`ValueError` (modelled as `none`). -/
def parseFields (pf : String → Option ℚ) : List String → Option (List ℚ)
  | [] => some []
  | t :: ts =>
    match pf t with
    | none => none
    | some v =>
      match parseFields pf ts with
      | none => none
      | some vs => some (v :: vs)

/-- Embeds `parse_rtl_power_line` (`drone_scanner.py:117-128`): `None` when the
line lacks the `"2400"` marker, splits into fewer than 7 fields, or a
field from index 6 on fails float parsing; otherwise the parsed powers.
`pf` abstracts Python's `float()`. -/
def parse_rtl_power_line (pf : String → Option ℚ) (line : String) :
    Option (List ℚ) :=
  if hasSubChars "2400".toList line.toList = false then none
  else
    let parts := splitWs line
    if parts.length < 7 then none
    else parseFields pf (parts.drop 6)

/-- The acquisition variant chosen by `scan_loop`. -/
inductive ScanMode where
  | simulation
  | hardware
  deriving DecidableEq, Repr

/-- Embeds `scan_loop`'s mode selection (`drone_scanner.py:189-199`):
`os.getenv("SKYRIPPER_USE_SIM_DATA", "1") != "0"` picks simulation. -/
def scan_loop (env : Option String) : ScanMode :=
  if (env.getD "1") ≠ "0" then .simulation else .hardware

/-- Modelled from the spec: the `Detection` record imported by the tests
and the web GUI from `src.drone_scanner` (the `DroneScanner` class and its
`Detection` dataclass are absent from `src/`); fields per spec §3:
`{timestamp, frequency_mhz, power_dbm, confidence, classifier}`. -/
structure Detection where
  timestamp : ℚ
  frequency_mhz : ℚ
  power_dbm : ℚ
  confidence : ℚ
  classifier : String
  deriving DecidableEq, Repr

/-- Modelled from the spec: the retry loop of `DroneScanner.latest`
(absent from `src/`; spec §4.3 and the unit tests constrain it):
repeatedly call `scan_once` with an internally doubled batch size until
`limit` detections are accumulated or the retry budget (`fuel`) is
exhausted; return the accumulation truncated to `limit`, paired with the
number of `scan_once` calls performed. -/
def latestGo (scanOnce : ℕ → List Detection) (limit : ℕ) :
    ℕ → ℕ → List Detection → List Detection × ℕ
  | 0, _, acc => (acc.take limit, 0)
  | fuel + 1, batch, acc =>
    if limit ≤ acc.length then (acc.take limit, 0)
    else
      let rest := latestGo scanOnce limit fuel (2 * batch) (acc ++ scanOnce batch)
      (rest.1, rest.2 + 1)

/-- Modelled from the spec: `DroneScanner.latest(limit, max_retries)`
(absent from `src/`): run the retry loop from an empty accumulation,
starting at batch size `batch0`. First component: the returned
detections; second: how many `scan_once` calls were made. -/
def DroneScanner.latest (scanOnce : ℕ → List Detection)
    (limit maxRetries batch0 : ℕ) : List Detection × ℕ :=
  latestGo scanOnce limit maxRetries batch0 []

/-- Helper `clamp01`: clamp a real to the unit interval. -/
noncomputable def clamp01 (x : ℝ) : ℝ := max 0 (min 1 x)

/-- Modelled from the spec: `normalized_strength` of the threshold-strategy
confidence (the `DroneScanner` threshold classifier is absent from
`src/`): `clamp01((power_dbm - threshold_dbm + 10) / 20)`. -/
noncomputable def normalized_strength (power_dbm threshold_dbm : ℝ) : ℝ :=
  clamp01 ((power_dbm - threshold_dbm + 10) / 20)

/-- Modelled from the spec: `harmonic_term = 0.5 + 0.5*sin(frequency_mhz/25)`
of the threshold-strategy confidence. -/
noncomputable def harmonic_term (frequency_mhz : ℝ) : ℝ :=
  0.5 + 0.5 * Real.sin (frequency_mhz / 25)

/-- Modelled from the spec: `availability_bonus` is `1.0` when a model was
successfully loaded, else `0.5`. -/
def availability_bonus (modelLoaded : Bool) : ℝ :=
  if modelLoaded then 1 else 0.5

/-- Modelled from the spec: the threshold-strategy confidence of the
`DroneScanner` classifier (absent from `src/`):
`clamp01(0.35*normalized_strength + 0.45*harmonic_term + 0.2*availability_bonus)`. -/
noncomputable def threshold_confidence (power_dbm threshold_dbm frequency_mhz : ℝ)
    (modelLoaded : Bool) : ℝ :=
  clamp01 (0.35 * normalized_strength power_dbm threshold_dbm
    + 0.45 * harmonic_term frequency_mhz
    + 0.2 * availability_bonus modelLoaded)

/-- One iteration's worth of draws from the generator's RNG
(`np.random.default_rng()` in `iter_simulated_spectra`): the per-bin
`normal(0, 1.5)` results, the `random()` burst coin, and the burst's
centre, width and amplitude draws. -/
structure SimDraws where
  normal : ℕ → ℝ
  u : ℝ
  centre : ℕ
  width : ℕ
  amplitude : ℝ

/-- Embeds `np.hanning(M)` at index `k`: `0.5 - 0.5*cos(2*pi*k/(M-1))` for `M > 1`,
the single value `1` for `M = 1`. -/
noncomputable def hanning (M k : ℕ) : ℝ :=
  if M ≤ 1 then 1
  else 0.5 - 0.5 * Real.cos (2 * Real.pi * k / (M - 1))

/-- Embeds `np.linspace(a, b, n)` at index `k`: `a + (b-a)*k/(n-1)` for `n > 1`,
`a` for `n = 1`. -/
noncomputable def linspaceAt (a b : ℝ) (n k : ℕ) : ℝ :=
  if n ≤ 1 then a else a + (b - a) * k / (n - 1)

/-- The pre-burst noise vector of `iter_simulated_spectra`: baseline
`np.linspace(-85, -80, length)` plus this iteration's normal draws
(the values returned by `rng.normal(0.0, 1.5, size=length)`). -/
noncomputable def simNoise (d : SimDraws) (length k : ℕ) : ℝ :=
  linspaceAt (-85) (-80) length k + d.normal k

open Classical in
/-- One spectrum yielded by `iter_simulated_spectra`
(`drone_scanner.py:96-114`): the noise vector; when the burst coin
`u < 0.35`, a Hann-windowed bump of the drawn amplitude is added over
`[max 0 (centre-width), min length (centre+width))` (Nat subtraction is
the `max 0` of the Python code). The draw stream `d` is the output of the
unseeded RNG: no caller-supplied argument of the Python function
determines it. -/
noncomputable def simulatedSpectrum (d : SimDraws) (length : ℕ) : List ℝ :=
  if d.u < 0.35 then
    (List.range length).map fun k =>
      if d.centre - d.width ≤ k ∧ k < min length (d.centre + d.width) then
        simNoise d length k + d.amplitude *
          hanning (min length (d.centre + d.width) - (d.centre - d.width))
            (k - (d.centre - d.width))
      else simNoise d length k
  else (List.range length).map (simNoise d length)

/-- Modelled from the spec: the JSON body accepted by the alert ingest
endpoint (the `/api/alert` POST route is absent from
`src/src/web_gui/app.py`; only its caller `post_alert` exists): fields
`{type, freq, power, time}`, each possibly missing. -/
structure AlertJson where
  type : Option String
  freq : Option String
  power : Option String
  time : Option ℚ
  deriving DecidableEq, Repr

/-- Modelled from the spec: well-formedness of an ingest payload — all four
required fields present. -/
def alertWellFormed (p : AlertJson) : Bool :=
  p.type.isSome && p.freq.isSome && p.power.isSome && p.time.isSome

/-- Modelled from the spec: the alert ingest handler (absent from `src/`):
a well-formed payload is appended to the store and acknowledged with
status 200; a malformed or empty payload gets client error 400 and the
store is unchanged. -/
def alertIngest (store : List AlertJson) (p : AlertJson) :
    List AlertJson × ℕ :=
  if alertWellFormed p then (store ++ [p], 200) else (store, 400)

/-- The empty JSON object `{}` as an ingest payload: every field missing. -/
def emptyAlertJson : AlertJson := ⟨none, none, none, none⟩

/-! ## Helper lemmas -/

/-- Pure description of `post_alert`'s observable outcome, used to factor
the case analysis shared by several theorems. -/
def postAlertPure (m : DroneCNN) (freqs : List ℚ) : PostAlertResult :=
  if freqs.length < 100 then ⟨false, []⟩
  else if m.predict freqs = false then ⟨true, []⟩
  else ⟨true, [⟨"http://localhost:5000/api/alert", 2⟩]⟩

lemma post_alert_eq (m : DroneCNN) (freqs : List ℚ) (df : Bool) :
    post_alert m freqs df = .ok (postAlertPure m freqs) := by
  unfold post_alert postAlertPure requestsPost
  split
  · rfl
  · split
    · rfl
    · cases df <;> rfl

lemma parseFields_eq_none_iff (pf : String → Option ℚ) (ts : List String) :
    parseFields pf ts = none ↔ ∃ t ∈ ts, pf t = none := by
  induction ts with
  | nil => simp [parseFields]
  | cons t ts ih =>
    cases h : pf t with
    | none => simp [parseFields, h]
    | some v =>
      cases h2 : parseFields pf ts with
      | none =>
        simp only [parseFields, h, h2]
        simp [ih.mp h2]
      | some vs =>
        have hne : ¬∃ t' ∈ ts, pf t' = none := by
          intro hc
          rw [ih.mpr hc] at h2
          exact Option.noConfusion h2
        simp [parseFields, h, h2, hne]

lemma parseFields_eq_some_iff (pf : String → Option ℚ) (ts : List String)
    (vs : List ℚ) :
    parseFields pf ts = some vs ↔ ts.map pf = vs.map some := by
  induction ts generalizing vs with
  | nil =>
    cases vs <;> simp [parseFields]
  | cons t ts ih =>
    cases h : pf t with
    | none =>
      simp only [parseFields, h, List.map_cons]
      constructor
      · intro hc; exact absurd hc (by simp)
      · intro hc
        cases vs with
        | nil => simp at hc
        | cons v vs => simp at hc
    | some v =>
      cases h2 : parseFields pf ts with
      | none =>
        simp only [parseFields, h, h2, List.map_cons]
        constructor
        · intro hc; exact absurd hc (by simp)
        · intro hc
          cases vs with
          | nil => simp at hc
          | cons w ws =>
            simp only [List.map_cons, List.cons.injEq] at hc
            have := (ih ws).mpr hc.2
            rw [this] at h2
            exact Option.noConfusion h2
      | some ws =>
        simp only [parseFields, h, h2, List.map_cons]
        constructor
        · intro hc
          cases vs with
          | nil => simp at hc
          | cons u us =>
            simp only [Option.some.injEq, List.cons.injEq] at hc
            obtain ⟨hv, hws⟩ := hc
            subst hv; subst hws
            simp only [List.map_cons, List.cons.injEq, true_and]
            exact (ih ws).mp h2
        · intro hc
          cases vs with
          | nil => simp at hc
          | cons u us =>
            simp only [List.map_cons, List.cons.injEq, Option.some.injEq] at hc
            obtain ⟨hv, hus⟩ := hc
            have := (ih us).mpr hus
            rw [this] at h2
            cases h2
            simp [hv]

lemma latestGo_length_le (scanOnce : ℕ → List Detection) (limit : ℕ) :
    ∀ (fuel batch : ℕ) (acc : List Detection),
      (latestGo scanOnce limit fuel batch acc).1.length ≤ limit := by
  intro fuel
  induction fuel with
  | zero => intro batch acc; simp [latestGo]
  | succ n ih =>
    intro batch acc
    rw [latestGo]
    split
    · simp
    · exact ih _ _

lemma latestGo_calls_le (scanOnce : ℕ → List Detection) (limit : ℕ) :
    ∀ (fuel batch : ℕ) (acc : List Detection),
      (latestGo scanOnce limit fuel batch acc).2 ≤ fuel := by
  intro fuel
  induction fuel with
  | zero => intro batch acc; simp [latestGo]
  | succ n ih =>
    intro batch acc
    rw [latestGo]
    split
    · simp
    · simpa using Nat.succ_le_succ (ih _ _)

lemma latestGo_all_empty (scanOnce : ℕ → List Detection) (limit : ℕ)
    (hs : ∀ b, scanOnce b = []) (hl : 0 < limit) :
    ∀ (fuel batch : ℕ), latestGo scanOnce limit fuel batch [] = ([], fuel) := by
  intro fuel
  induction fuel with
  | zero => intro batch; simp [latestGo]
  | succ n ih =>
    intro batch
    rw [latestGo]
    rw [if_neg (by simp only [List.length_nil]; omega)]
    simp [hs, ih]

lemma latestGo_stop_calls (scanOnce : ℕ → List Detection) (limit : ℕ)
    (fuel batch : ℕ) (acc : List Detection) (h : limit ≤ acc.length) :
    (latestGo scanOnce limit fuel batch acc).2 = 0 := by
  cases fuel with
  | zero => simp [latestGo]
  | succ n => rw [latestGo, if_pos h]

/-! ## Claim theorems -/

/-- C1: `DroneCNN.predict` returns `true` only if the sample's peak power
exceeds `ALERT_THRESHOLD_DBM` (-50.0 dBm); with no Torch module loaded the
decision is exactly the peak-power threshold check, and with a module
loaded it is the conjunction of the module's binary class decision on the
first 100 bins and the same threshold check. -/
theorem c1_predict_decision (m : DroneCNN) (spectrum : List ℚ)
    (_hne : spectrum ≠ []) :
    (m.predict spectrum = true → peakMax spectrum > ALERT_THRESHOLD_DBM) ∧
    (m.model = none →
      m.predict spectrum = decide (peakMax spectrum > ALERT_THRESHOLD_DBM)) ∧
    (∀ cnn, m.model = some cnn →
      m.predict spectrum =
        (cnn (spectrum.take 100) &&
          decide (peakMax spectrum > ALERT_THRESHOLD_DBM))) := by
  obtain ⟨mo⟩ := m
  cases mo with
  | none =>
    refine ⟨?_, fun _ => rfl, fun cnn hc => by simp at hc⟩
    intro h
    simpa [DroneCNN.predict] using h
  | some cnn =>
    refine ⟨?_, fun hc => by simp at hc, ?_⟩
    · intro h
      simp only [DroneCNN.predict, Bool.and_eq_true, decide_eq_true_eq] at h
      exact h.2
    · intro cnn' hc
      simp only [Option.some.injEq] at hc
      subst hc
      rfl

/-- Witness for C1 at a concrete input: the classifier without a Torch
module on the one-bin sample `[-40]` answers `true`, so the theorem yields
the peak-power bound. -/
theorem c1_witness : peakMax [(-40 : ℚ)] > ALERT_THRESHOLD_DBM :=
  (c1_predict_decision ⟨none⟩ [(-40 : ℚ)] (by decide)).1 (by decide)

/-- C5: `post_alert` is best-effort: it always returns normally (never
propagates a delivery failure), attempts at most one HTTP post, every
attempted post carries `timeout=2`, and a failing delivery produces the
same outcome as a successful one (no retry, silently dropped). -/
theorem c5_post_alert_best_effort (m : DroneCNN) (freqs : List ℚ)
    (deliveryFails : Bool) :
    post_alert m freqs deliveryFails = .ok (postAlertPure m freqs) ∧
    (postAlertPure m freqs).requests.length ≤ 1 ∧
    (∀ q ∈ (postAlertPure m freqs).requests, q.timeoutSeconds = 2) ∧
    post_alert m freqs true = post_alert m freqs false := by
  refine ⟨post_alert_eq m freqs deliveryFails, ?_, ?_,
    by rw [post_alert_eq, post_alert_eq]⟩
  · unfold postAlertPure
    split
    · simp
    · split <;> simp
  · unfold postAlertPure
    split
    · simp
    · split
      · simp
      · intro q hq
        simp only [List.mem_singleton] at hq
        rw [hq]

set_option maxRecDepth 4000 in
/-- Witness for C5 at a concrete input: a 100-bin sample with peak 0 dBm
and a failing delivery still yields a normal return with exactly one
request. -/
theorem c5_witness :
    post_alert ⟨none⟩ (List.replicate 100 (0 : ℚ)) true =
      .ok ⟨true, [⟨"http://localhost:5000/api/alert", 2⟩]⟩ := by
  rw [(c5_post_alert_best_effort ⟨none⟩ (List.replicate 100 (0 : ℚ)) true).1]
  rfl

/-- C9: `post_alert` on a sample of fewer than 100 bins returns
immediately: the classifier is not invoked and no request is sent, even
when the peak power exceeds the alert threshold; and a request can only
ever be issued for a sample of at least 100 bins. -/
theorem c9_short_sample_no_alert (m : DroneCNN) (freqs : List ℚ)
    (deliveryFails : Bool) :
    (freqs.length < 100 →
      post_alert m freqs deliveryFails = .ok ⟨false, []⟩) ∧
    (∀ r, post_alert m freqs deliveryFails = .ok r → r.requests ≠ [] →
      100 ≤ freqs.length) := by
  constructor
  · intro h
    rw [post_alert_eq]
    unfold postAlertPure
    rw [if_pos h]
  · intro r hr hreq
    rw [post_alert_eq] at hr
    simp only [Except.ok.injEq] at hr
    subst hr
    unfold postAlertPure at hreq
    by_contra hlen
    rw [if_pos (by omega)] at hreq
    exact hreq rfl

/-- Witness for C9 at a concrete input: the one-bin sample `[0]` has peak
0 dBm above the threshold, yet `post_alert` returns with the classifier
uninvoked and no request sent. -/
theorem c9_witness :
    peakMax [(0 : ℚ)] > ALERT_THRESHOLD_DBM ∧
    post_alert ⟨none⟩ [(0 : ℚ)] false = .ok ⟨false, []⟩ :=
  ⟨by decide, (c9_short_sample_no_alert ⟨none⟩ [(0 : ℚ)] false).1 (by decide)⟩

/-- C10: `scan_loop` selects the acquisition variant solely from the
`SKYRIPPER_USE_SIM_DATA` environment variable: simulation when it is
unset, simulation for any value other than `"0"`, and hardware capture
exactly when it is `"0"`. -/
theorem c10_scan_loop_mode (s : String) (h : s ≠ "0") :
    scan_loop none = .simulation ∧
    scan_loop (some "0") = .hardware ∧
    scan_loop (some s) = .simulation := by
  refine ⟨rfl, rfl, ?_⟩
  unfold scan_loop
  rw [Option.getD_some, if_pos h]

/-- Witness for C10 at a concrete input: the value `"1"` selects
simulation mode. -/
theorem c10_witness : scan_loop (some "1") = .simulation :=
  (c10_scan_loop_mode "1" (by decide)).2.2

/-- C3: `parse_rtl_power_line` yields no sample exactly when the line lacks
the `"2400"` marker, splits into fewer than 7 whitespace-delimited fields,
or some field from index 6 on fails float parsing; and any returned sample
is exactly the floats parsed from the fields from index 6 on. -/
theorem c3_parse_line (pf : String → Option ℚ) (line : String) :
    (parse_rtl_power_line pf line = none ↔
      hasSubChars "2400".toList line.toList = false ∨
      (splitWs line).length < 7 ∨
      ∃ t ∈ (splitWs line).drop 6, pf t = none) ∧
    (∀ vs, parse_rtl_power_line pf line = some vs ↔
      hasSubChars "2400".toList line.toList = true ∧
      7 ≤ (splitWs line).length ∧
      ((splitWs line).drop 6).map pf = vs.map some) := by
  unfold parse_rtl_power_line
  cases hmark : hasSubChars "2400".toList line.toList with
  | false =>
    constructor
    · simp
    · intro vs; simp
  | true =>
    rw [if_neg (by simp)]
    by_cases h2 : (splitWs line).length < 7
    · rw [if_pos h2]
      constructor
      · simp [h2]
      · intro vs
        constructor
        · intro hc; exact absurd hc (by simp)
        · rintro ⟨-, hlen, -⟩; omega
    · rw [if_neg h2]
      constructor
      · rw [parseFields_eq_none_iff]
        simp [h2]
      · intro vs
        rw [parseFields_eq_some_iff]
        constructor
        · intro h; exact ⟨rfl, by omega, h⟩
        · rintro ⟨-, -, h⟩; exact h

/-- Witness for C3 at a concrete input: a line carrying the marker with
eight fields parses to the floats of fields 6 and 7 under a concrete
float parser. -/
theorem c3_witness :
    parse_rtl_power_line (fun t => if t = "x" then none else some 1)
      "2400 a b c d e p q" = some [1, 1] :=
  ((c3_parse_line (fun t => if t = "x" then none else some 1)
      "2400 a b c d e p q").2 [1, 1]).mpr ⟨by decide, by decide, by decide⟩

/-- C2: the `latest(limit, max_retries)` accumulation contract: the result
never exceeds `limit` detections and never performs more than
`max_retries` underlying `scan_once` calls; when every batch is empty,
`latest(limit=5, max_retries=3)` returns no detections after exactly 3
calls; and once the first batch already reaches `limit`, exactly one call
is made. -/
theorem c2_latest_contract (scanOnce : ℕ → List Detection)
    (limit maxRetries batch0 : ℕ) :
    (DroneScanner.latest scanOnce limit maxRetries batch0).1.length ≤ limit ∧
    (DroneScanner.latest scanOnce limit maxRetries batch0).2 ≤ maxRetries ∧
    ((∀ b, scanOnce b = []) →
      DroneScanner.latest scanOnce 5 3 batch0 = ([], 3)) ∧
    (0 < limit → limit ≤ (scanOnce batch0).length → 1 ≤ maxRetries →
      (DroneScanner.latest scanOnce limit maxRetries batch0).2 = 1) := by
  refine ⟨latestGo_length_le scanOnce limit maxRetries batch0 [],
    latestGo_calls_le scanOnce limit maxRetries batch0 [], ?_, ?_⟩
  · intro hs
    exact latestGo_all_empty scanOnce 5 hs (by omega) 3 batch0
  · intro hl hfirst hretry
    obtain ⟨n, rfl⟩ : ∃ n, maxRetries = n + 1 :=
      ⟨maxRetries - 1, by omega⟩
    unfold DroneScanner.latest
    rw [latestGo]
    rw [if_neg (by simp only [List.length_nil]; omega)]
    simp only []
    rw [latestGo_stop_calls scanOnce limit n (2 * batch0) (List.nil ++ scanOnce batch0)
      (by simpa using hfirst)]

/-- Witness for C2 at concrete inputs: with all-empty batches
`latest(5, 3)` returns nothing after exactly 3 calls, and with a first
batch of 10 detections `latest(5, 3)` makes exactly one call. -/
theorem c2_witness :
    DroneScanner.latest (fun _ => []) 5 3 1 = ([], 3) ∧
    (DroneScanner.latest
      (fun _ => List.replicate 10 ⟨0, 0, 0, 0, "test"⟩) 5 3 1).2 = 1 :=
  ⟨(c2_latest_contract (fun _ => []) 5 3 1).2.2.1 (fun _ => rfl),
    (c2_latest_contract (fun _ => List.replicate 10 ⟨0, 0, 0, 0, "test"⟩)
      5 3 1).2.2.2 (by omega) (by simp) (by omega)⟩

/-- C7: the threshold-strategy confidence equals
`clamp01(0.35*normalized_strength + 0.45*harmonic_term +
0.2*availability_bonus)` with the spec's component formulas, and for all
inputs it lies in `[0, 1]`. -/
theorem c7_confidence_formula_and_bounds
    (power_dbm threshold_dbm frequency_mhz : ℝ) (modelLoaded : Bool) :
    threshold_confidence power_dbm threshold_dbm frequency_mhz modelLoaded =
      clamp01 (0.35 * clamp01 ((power_dbm - threshold_dbm + 10) / 20)
        + 0.45 * (0.5 + 0.5 * Real.sin (frequency_mhz / 25))
        + 0.2 * availability_bonus modelLoaded) ∧
    0 ≤ threshold_confidence power_dbm threshold_dbm frequency_mhz modelLoaded ∧
    threshold_confidence power_dbm threshold_dbm frequency_mhz modelLoaded ≤ 1 := by
  refine ⟨rfl, ?_, ?_⟩
  · exact le_max_left 0 _
  · exact max_le (by norm_num) (min_le_left 1 _)

/-- C8: the alert ingest endpoint answers every malformed payload (some
required field among `type`, `freq`, `power`, `time` missing) — in
particular the empty JSON object — with a client error (400) and leaves
the store unchanged, while a well-formed payload (all four fields
present) is appended to the store and acknowledged (200). -/
theorem c8_ingest_contract (store : List AlertJson) (p q : AlertJson) :
    alertIngest store emptyAlertJson = (store, 400) ∧
    (alertWellFormed p = false → alertIngest store p = (store, 400)) ∧
    (alertWellFormed q = true → alertIngest store q = (store ++ [q], 200)) := by
  refine ⟨rfl, ?_, ?_⟩
  · intro h
    unfold alertIngest
    rw [h]
    rfl
  · intro h
    unfold alertIngest
    rw [if_pos h]

/-- Witness for C8 at concrete inputs: the empty object and a partial
payload carrying only `type` are both rejected with status 400 on an
empty store, and a fully populated payload is inserted with status
200. -/
theorem c8_witness :
    alertIngest [] emptyAlertJson = ([], 400) ∧
    alertIngest [] ⟨some "DRONE_BURST", none, none, none⟩ = ([], 400) ∧
    alertIngest [] ⟨some "DRONE_BURST", some "2412.5MHz", some "-42.0dBm", some 1⟩ =
      ([⟨some "DRONE_BURST", some "2412.5MHz", some "-42.0dBm", some 1⟩], 200) :=
  ⟨(c8_ingest_contract [] emptyAlertJson emptyAlertJson).1,
    (c8_ingest_contract [] ⟨some "DRONE_BURST", none, none, none⟩
      emptyAlertJson).2.1 rfl,
    (c8_ingest_contract [] emptyAlertJson
      ⟨some "DRONE_BURST", some "2412.5MHz", some "-42.0dBm", some 1⟩).2.2 rfl⟩

/-- Draw stream A: burst coin `1` (no burst), all normal draws `0`. -/
def simDrawsA : SimDraws := ⟨fun _ => 0, 1, 0, 0, 0⟩

/-- Draw stream B: burst coin `1` (no burst), all normal draws `1`. -/
def simDrawsB : SimDraws := ⟨fun _ => 1, 1, 0, 0, 0⟩

/-- C4 counterexample: `iter_simulated_spectra` accepts no seed — its RNG
is constructed unseeded inside the function — so two runs that agree on
every caller-suppliable argument (here `length = 1`) can still produce
different spectra: the run's draw stream is not determined by the caller.
This refutes the claim that the caller can select a seeding mode making
runs reproducible. -/
theorem c4_counterexample :
    simulatedSpectrum simDrawsA 1 ≠ simulatedSpectrum simDrawsB 1 := by
  unfold simulatedSpectrum simDrawsA simDrawsB
  rw [if_neg (by norm_num), if_neg (by norm_num)]
  have h1 : List.range 1 = [0] := rfl
  rw [h1]
  simp only [List.map_cons, List.map_nil, ne_eq, List.cons.injEq, and_true]
  unfold simNoise linspaceAt
  norm_num

/-- C4 amended: the generator is deterministic as a function of its RNG
draw stream — two iterations whose draws agree (the per-bin normals on
the grid, the burst coin, centre, width and amplitude) produce identical
spectra. Reproducibility therefore holds exactly when the draw stream is
fixed, which the code never lets a caller do. -/
theorem c4_amended_determinism (d₁ d₂ : SimDraws) (length : ℕ)
    (hn : ∀ k < length, d₁.normal k = d₂.normal k)
    (hu : d₁.u = d₂.u) (hc : d₁.centre = d₂.centre)
    (hw : d₁.width = d₂.width) (ha : d₁.amplitude = d₂.amplitude) :
    simulatedSpectrum d₁ length = simulatedSpectrum d₂ length := by
  have hnoise : ∀ k < length, simNoise d₁ length k = simNoise d₂ length k := by
    intro k hk
    unfold simNoise
    rw [hn k hk]
  unfold simulatedSpectrum
  rw [hu, hc, hw, ha]
  split
  · apply List.map_congr_left
    intro k hk
    rw [List.mem_range] at hk
    split
    · rw [hnoise k hk]
    · exact hnoise k hk
  · apply List.map_congr_left
    intro k hk
    rw [List.mem_range] at hk
    exact hnoise k hk

/-- Witness for the amended C4 at concrete inputs: two draw streams that
agree on the one on-grid normal draw (but differ off the grid) give the
same one-bin spectrum. -/
theorem c4_witness :
    simulatedSpectrum ⟨fun k => if k = 0 then 2 else 37, 1, 0, 0, 0⟩ 1 =
      simulatedSpectrum ⟨fun _ => 2, 1, 0, 0, 0⟩ 1 :=
  c4_amended_determinism
    ⟨fun k => if k = 0 then 2 else 37, 1, 0, 0, 0⟩
    ⟨fun _ => 2, 1, 0, 0, 0⟩ 1
    (fun k hk => by
      have hk0 : k = 0 := by omega
      subst hk0
      simp)
    rfl rfl rfl rfl

/-- An untrained CNN whose class-1 decision happens to be `false` on every
input: one possible behavior of the randomly initialised
`_TorchDroneCNN()` that `load_model` leaves installed. -/
def untrainedNever : List ℚ → Bool := fun _ => false

/-- A trained checkpoint's class decision (arbitrary; never reached when
the checkpoint file is missing). -/
def trainedAlways : List ℚ → Bool := fun _ => true

set_option maxRecDepth 4000 in
/-- C6 evaluation at the failing input: with Torch available and the
checkpoint file missing, `load_model` catches the `FileNotFoundError` and
returns without raising — but the returned classifier still carries the
untrained Torch module (`model ≠ none`), so on a 100-bin sample with peak
-10 dBm its decision is the untrained CNN's (here `false`), while the
threshold-only fallback the code's own log message promises would decide
`true`. -/
theorem c6_code_evaluation :
    load_model true false untrainedNever trainedAlways =
      ⟨some untrainedNever⟩ ∧
    (load_model true false untrainedNever trainedAlways).model ≠ none ∧
    (load_model true false untrainedNever trainedAlways).predict
      (List.replicate 100 (-10 : ℚ)) = false ∧
    (DroneCNN.mk none).predict (List.replicate 100 (-10 : ℚ)) = true := by
  refine ⟨rfl, by simp [load_model, droneCNNInit, DroneCNN.load_state], rfl, ?_⟩
  show decide (peakMax (List.replicate 100 (-10 : ℚ)) > ALERT_THRESHOLD_DBM) = true
  rw [decide_eq_true_eq]
  norm_num [peakMax, List.replicate, ALERT_THRESHOLD_DBM]
